import Mathlib

/-!
Verification of the GenericFileFormat tokenizer/serializer
(`source/main/utils/GenericFileFormat.cpp`).

The C++ code is shallowly embedded: the per-character lexical state machine
(`DocumentParser` and its handlers), the document loader
(`GenericDocument::LoadFromDataStream`), the serializer
(`GenericDocument::SaveToDataStream`) and the line-navigation helper
(`GenericDocReader::CountLineArgs`) become executable Lean functions over
`List Char`.  The `float` payload of a token is modelled as `ℚ` (all payload
values arising in the statements below are exactly representable), and the
console diagnostic sink is modelled as a list of diagnostic records carried
in the parser state.
-/

namespace GFF

/-- Token kinds, from `enum TokenType` used by `GenericFileFormat.cpp`. -/
inductive TokenType where
  | LINEBREAK
  | COMMENT
  | STRING
  | NUMBER
  | BOOL
  | KEYWORD
deriving DecidableEq, Repr

/-- One token: a kind plus the numeric payload (`float data` in C++;
for STRING/COMMENT/KEYWORD the payload is a string-pool offset). -/
structure Token where
  type : TokenType
  data : ℚ
deriving DecidableEq, Repr

/-- The document: token list plus append-only string pool
(`std::vector<char> string_pool`). -/
structure GenericDocument where
  tokens : List Token
  string_pool : List Char
deriving DecidableEq, Repr

/-- The lexer's partial-token state, from `enum class PartialToken`. -/
inductive PartialToken where
  | NONE
  | COMMENT_SEMICOLON
  | COMMENT_SLASH
  | STRING_QUOTED
  | STRING_NAKED
  | TITLE_STRING
  | NUMBER
  | NUMBER_DOT
  | KEYWORD
  | BOOL_TRUE
  | BOOL_FALSE
  | GARBAGE
deriving DecidableEq, Repr

/-- The three `GenericDocument::OPTION_*` bits of the `BitMask_t options`. -/
structure Options where
  allow_slash_comments : Bool
  allow_naked_strings : Bool
  first_line_is_title : Bool
deriving DecidableEq, Repr

/-- Kinds of console warnings emitted by the parser (`putMessage` calls). -/
inductive DiagKind where
  | strayChar
  | strayCharInString
  | strayCharInNumber
  | strayCharInBoolean
  | strayCharInKeyword
  | incompleteBoolean
  | garbageDiscarded
  | stringInterrupted
deriving DecidableEq, Repr

/-- One diagnostic record: line number, column, kind. -/
structure Diag where
  line : Nat
  pos : Nat
  kind : DiagKind
deriving DecidableEq, Repr

/-- The parser context, from `struct DocumentParser` (the console sink is
modelled by the `diags` trace). -/
structure DocumentParser where
  options : Options
  doc : GenericDocument
  tok : List Char
  line_num : Nat
  line_pos : Nat
  partial_tok_type : PartialToken
  title_found : Bool
  diags : List Diag
deriving DecidableEq, Repr

/-- C `isdigit` on the ASCII range. -/
def isdigit (c : Char) : Bool := '0' ≤ c && c ≤ '9'

/-- C `isalpha` on the ASCII range (default locale). -/
def isalpha (c : Char) : Bool := ('a' ≤ c && c ≤ 'z') || ('A' ≤ c && c ≤ 'Z')

/-- C `isalnum` on the ASCII range. -/
def isalnum (c : Char) : Bool := isalpha c || isdigit c

/-- The NUL byte terminating each pooled string. -/
def NUL : Char := Char.ofNat 0

/-- Decimal value of a digit run. -/
def digitsVal (ds : List Char) : Nat :=
  ds.foldl (fun a c => 10 * a + (c.toNat - 48)) 0

/-- Modelled from the spec: `Ogre::StringConverter::parseReal` — the
locale-independent decimal parsing of the buffered number text, yielding 0
when no digits can be converted (Ogre's default value).  Parses an optional
leading `-`, an integer digit run, and an optional `.` plus fractional
digit run. -/
def parseReal (s : List Char) : ℚ :=
  let signed := s.head? = some '-'
  let s1 := if signed then s.tail else s
  let intDigits := s1.takeWhile isdigit
  let rest := s1.dropWhile isdigit
  let fracDigits := if rest.head? = some '.' then rest.tail.takeWhile isdigit else []
  if intDigits = [] ∧ fracDigits = [] then 0
  else
    let num : Nat := digitsVal intDigits * 10 ^ fracDigits.length + digitsVal fracDigits
    mkRat (if signed then -(num : Int) else (num : Int)) (10 ^ fracDigits.length)

/-- Append one token to the document held by the parser. -/
def pushTok (p : DocumentParser) (t : Token) : DocumentParser :=
  { p with doc := { p.doc with tokens := p.doc.tokens ++ [t] } }

/-- Record a diagnostic (the `App::GetConsole()->putMessage(...)` calls). -/
def addDiag (p : DocumentParser) (k : DiagKind) : DocumentParser :=
  { p with diags := p.diags ++ [⟨p.line_num, p.line_pos, k⟩] }

/-- The repeated flush block for textual tokens: push a token whose payload
is the current pool size, append the accumulated text plus a NUL terminator
to the pool, clear the accumulator, return to state NONE. -/
def flushStringish (p : DocumentParser) (tt : TokenType) : DocumentParser :=
  { p with
    doc := {
      tokens := p.doc.tokens ++ [⟨tt, (p.doc.string_pool.length : ℚ)⟩],
      string_pool := p.doc.string_pool ++ p.tok ++ [NUL] },
    tok := [],
    partial_tok_type := .NONE }

/-- The repeated line-break block: push a LINEBREAK token, advance the line
counter, reset the column. -/
def flushLinebreak (p : DocumentParser) : DocumentParser :=
  { p with
    doc := { p.doc with tokens := p.doc.tokens ++ [⟨.LINEBREAK, 0⟩] },
    line_num := p.line_num + 1,
    line_pos := 0 }

/-- The number flush block: `tok.push_back('\0')` then push a NUMBER token
carrying `parseReal(tok.data())` (which reads the accumulated text), clear
the accumulator, return to NONE. -/
def flushNumber (p : DocumentParser) : DocumentParser :=
  { p with
    doc := { p.doc with tokens := p.doc.tokens ++ [⟨.NUMBER, parseReal p.tok⟩] },
    tok := [],
    partial_tok_type := .NONE }

/-- `c` is one of the inter-token separators space, comma, tab. -/
def isSep (c : Char) : Bool := c = ' ' || c = ',' || c = '\t'

/-- The `if (partial_tok_type == PartialToken::GARBAGE) putMessage(...)`
epilogue shared by several handlers. -/
def strayDiagWrap (k : DiagKind) (q : DocumentParser) : DocumentParser :=
  if q.partial_tok_type = .GARBAGE then addDiag q k else q

/-- `line_pos++`. -/
def bumpPos (q : DocumentParser) : DocumentParser :=
  { q with line_pos := q.line_pos + 1 }

/-- `tok.push_back(c)`. -/
def pushAccum (q : DocumentParser) (c : Char) : DocumentParser :=
  { q with tok := q.tok ++ [c] }

/-- `tok.clear(); partial_tok_type = NONE`. -/
def discardTok (q : DocumentParser) : DocumentParser :=
  { q with tok := [], partial_tok_type := .NONE }

/-- The `switch (c)` statement of `DocumentParser::BeginToken`. -/
def BeginTokenSwitch (p : DocumentParser) (c : Char) : DocumentParser :=
  if c = '\r' then p
    else if isSep c then { p with line_pos := p.line_pos + 1 }
    else if c = '\n' then flushLinebreak p
    else if c = ';' then
      { p with partial_tok_type := .COMMENT_SEMICOLON, line_pos := p.line_pos + 1 }
    else if c = '/' then
      (if p.options.allow_slash_comments then
        { p with partial_tok_type := .COMMENT_SLASH, line_pos := p.line_pos + 1 }
      else if p.options.allow_naked_strings
          ∧ (p.doc.tokens ≠ [] ∧ (p.doc.tokens.getLast?.map Token.type) ≠ some .LINEBREAK) then
        { p with tok := p.tok ++ [c], partial_tok_type := .STRING_NAKED,
                 line_pos := p.line_pos + 1 }
      else
        { p with partial_tok_type := .GARBAGE, tok := p.tok ++ [c],
                 line_pos := p.line_pos + 1 })
    else if c = '"' then
      { p with partial_tok_type := .STRING_QUOTED, line_pos := p.line_pos + 1 }
    else if c = '.' then
      { p with tok := p.tok ++ [c], partial_tok_type := .NUMBER_DOT, line_pos := p.line_pos + 1 }
    else if c = '-' then
      { p with tok := p.tok ++ [c], partial_tok_type := .NUMBER, line_pos := p.line_pos + 1 }
    else if c = 't' then
      { p with tok := p.tok ++ [c], partial_tok_type := .BOOL_TRUE, line_pos := p.line_pos + 1 }
    else if c = 'f' then
      { p with tok := p.tok ++ [c], partial_tok_type := .BOOL_FALSE, line_pos := p.line_pos + 1 }
  else
    (if isdigit c then
      { p with tok := p.tok ++ [c], partial_tok_type := .NUMBER,
               line_pos := p.line_pos + 1 }
    else if isalpha c
        ∧ (p.doc.tokens = [] ∨ (p.doc.tokens.getLast?.map Token.type) = some .LINEBREAK) then
      { p with tok := p.tok ++ [c], partial_tok_type := .KEYWORD,
               line_pos := p.line_pos + 1 }
    else if p.options.allow_naked_strings then
      { p with tok := p.tok ++ [c], partial_tok_type := .STRING_NAKED,
               line_pos := p.line_pos + 1 }
    else
      { p with partial_tok_type := .GARBAGE, tok := p.tok ++ [c],
               line_pos := p.line_pos + 1 })

/-- The first-line-is-title override following the switch in
`DocumentParser::BeginToken` (it reads the post-switch state). -/
def titleOverride (p1 : DocumentParser) : DocumentParser :=
  if p1.options.first_line_is_title = true
      ∧ p1.title_found = false
      ∧ (p1.doc.tokens = [] ∨ (p1.doc.tokens.getLast?.map Token.type) = some .LINEBREAK)
      ∧ p1.partial_tok_type ≠ .NONE
      ∧ p1.partial_tok_type ≠ .COMMENT_SEMICOLON
      ∧ p1.partial_tok_type ≠ .COMMENT_SLASH then
    { p1 with title_found := true, partial_tok_type := .TITLE_STRING }
  else p1

/-- `DocumentParser::BeginToken` — the state-NONE dispatch on the first
character of a token, followed by the first-line-is-title override and the
stray-character diagnostic. -/
def BeginToken (p : DocumentParser) (c : Char) : DocumentParser :=
  strayDiagWrap .strayChar (titleOverride (BeginTokenSwitch p c))

/-- `DocumentParser::UpdateComment` — inside `COMMENT_SEMICOLON` or
`COMMENT_SLASH`. -/
def UpdateComment (p : DocumentParser) (c : Char) : DocumentParser :=
  if c = '\r' then p
  else if c = '\n' then
    flushLinebreak (flushStringish p .COMMENT)
  else if c = '/' then
    if p.partial_tok_type ≠ .COMMENT_SLASH ∨ 0 < p.tok.length then
      { p with tok := p.tok ++ [c], line_pos := p.line_pos + 1 }
    else
      { p with line_pos := p.line_pos + 1 }
  else
    { p with tok := p.tok ++ [c], line_pos := p.line_pos + 1 }

/-- The `switch (c)` statement of `DocumentParser::UpdateString`.  Note
that a separator inside a quoted string pushes a NUL byte into the
accumulator (the code's `tok.push_back('\0')`). -/
def UpdateStringSwitch (p : DocumentParser) (c : Char) : DocumentParser :=
  if c = '\r' then p
  else if isSep c then
    if p.partial_tok_type = .STRING_QUOTED then
      { p with tok := p.tok ++ [NUL], line_pos := p.line_pos + 1 }
    else
      bumpPos (flushStringish p .STRING)
  else if c = '\n' then
    flushLinebreak (flushStringish
      (if p.partial_tok_type = .STRING_QUOTED then addDiag p .stringInterrupted else p) .STRING)
  else if c = '"' then
    if p.partial_tok_type = .STRING_QUOTED then
      bumpPos (flushStringish p .STRING)
    else
      { p with partial_tok_type := .GARBAGE, tok := p.tok ++ [c], line_pos := p.line_pos + 1 }
  else
    { p with tok := p.tok ++ [c], line_pos := p.line_pos + 1 }

/-- `DocumentParser::UpdateString` — inside `STRING_QUOTED` or
`STRING_NAKED`, plus the trailing stray-character diagnostic. -/
def UpdateString (p : DocumentParser) (c : Char) : DocumentParser :=
  strayDiagWrap .strayCharInString (UpdateStringSwitch p c)

/-- `DocumentParser::UpdateNumber` — inside `NUMBER` or `NUMBER_DOT`, plus
the trailing stray-character diagnostic.  The C++ switch has no `default`
case: any character other than `\r`, separators, `\n`, `-`, `.` (digits in
particular) leaves the parser state entirely unchanged. -/
def UpdateNumberSwitch (p : DocumentParser) (c : Char) : DocumentParser :=
  if c = '\r' then p
  else if isSep c then
    bumpPos (flushNumber p)
  else if c = '\n' then
    flushLinebreak (flushNumber p)
  else if c = '-' then
    { p with partial_tok_type := .GARBAGE, tok := p.tok ++ [c], line_pos := p.line_pos + 1 }
  else if c = '.' then
    if p.partial_tok_type = .NUMBER then
      { p with tok := p.tok ++ [c], partial_tok_type := .NUMBER_DOT, line_pos := p.line_pos + 1 }
    else
      { p with partial_tok_type := .GARBAGE, tok := p.tok ++ [c], line_pos := p.line_pos + 1 }
  else p

/-- `DocumentParser::UpdateNumber` with its trailing diagnostic check. -/
def UpdateNumber (p : DocumentParser) (c : Char) : DocumentParser :=
  strayDiagWrap .strayCharInNumber (UpdateNumberSwitch p c)

/-- The downgrade taken by `UpdateBool` on a mismatched character: to
`STRING_NAKED` when naked strings are enabled, else to `GARBAGE`. -/
def boolDowngrade (p : DocumentParser) : DocumentParser :=
  if p.options.allow_naked_strings then
    { p with partial_tok_type := .STRING_NAKED }
  else
    { p with partial_tok_type := .GARBAGE }

/-- `DocumentParser::UpdateBool` — inside `BOOL_TRUE` or `BOOL_FALSE`, plus
the trailing stray-character diagnostic.  The final `default` case pushes
the character without advancing the column (as in the source). -/
def UpdateBoolSwitch (p : DocumentParser) (c : Char) : DocumentParser :=
  if c = '\r' then p
  else if isSep c then
    bumpPos (discardTok (addDiag p .incompleteBoolean))
  else if c = '\n' then
    flushLinebreak (discardTok (addDiag p .incompleteBoolean))
  else if c = 'r' then
    bumpPos (pushAccum
      (if p.partial_tok_type ≠ .BOOL_TRUE ∨ p.tok.length ≠ 1 then boolDowngrade p else p) c)
  else if c = 'u' then
    bumpPos (pushAccum
      (if p.partial_tok_type ≠ .BOOL_TRUE ∨ p.tok.length ≠ 2 then boolDowngrade p else p) c)
  else if c = 'a' then
    bumpPos (pushAccum
      (if p.partial_tok_type ≠ .BOOL_FALSE ∨ p.tok.length ≠ 1 then boolDowngrade p else p) c)
  else if c = 'l' then
    bumpPos (pushAccum
      (if p.partial_tok_type ≠ .BOOL_FALSE ∨ p.tok.length ≠ 2 then boolDowngrade p else p) c)
  else if c = 's' then
    bumpPos (pushAccum
      (if p.partial_tok_type ≠ .BOOL_FALSE ∨ p.tok.length ≠ 3 then boolDowngrade p else p) c)
  else if c = 'e' then
    if p.partial_tok_type = .BOOL_TRUE ∧ p.tok.length = 3 then
      bumpPos (discardTok (pushTok p ⟨.BOOL, 1⟩))
    else if p.partial_tok_type = .BOOL_FALSE ∧ p.tok.length = 4 then
      bumpPos (discardTok (pushTok p ⟨.BOOL, 0⟩))
    else
      bumpPos (pushAccum (boolDowngrade p) c)
  else
    pushAccum (boolDowngrade p) c

/-- `DocumentParser::UpdateBool` with its trailing diagnostic check. -/
def UpdateBool (p : DocumentParser) (c : Char) : DocumentParser :=
  strayDiagWrap .strayCharInBoolean (UpdateBoolSwitch p c)

/-- The `switch (c)` statement of `DocumentParser::UpdateKeyword`.  A
non-alphanumeric character switches the partial token to `GARBAGE` (the
character is still accumulated). -/
def UpdateKeywordSwitch (p : DocumentParser) (c : Char) : DocumentParser :=
  if c = '\r' then p
  else if isSep c then
    bumpPos (flushStringish p .KEYWORD)
  else if c = '\n' then
    flushLinebreak (flushStringish p .KEYWORD)
  else
    bumpPos (pushAccum
      (if isalnum c then p else { p with partial_tok_type := .GARBAGE }) c)

/-- `DocumentParser::UpdateKeyword` with its trailing diagnostic check. -/
def UpdateKeyword (p : DocumentParser) (c : Char) : DocumentParser :=
  strayDiagWrap .strayCharInKeyword (UpdateKeywordSwitch p c)

/-- `DocumentParser::UpdateTitle` — inside `TITLE_STRING`. -/
def UpdateTitle (p : DocumentParser) (c : Char) : DocumentParser :=
  if c = '\r' then p
  else if c = '\n' then
    flushLinebreak (flushStringish p .STRING)
  else
    { p with tok := p.tok ++ [c], line_pos := p.line_pos + 1 }

/-- `DocumentParser::UpdateGarbage` — inside `GARBAGE`: a separator or a
newline discards the accumulated token with a diagnostic (no token, and no
LINEBREAK, is emitted). -/
def UpdateGarbage (p : DocumentParser) (c : Char) : DocumentParser :=
  if c = '\r' then p
  else if isSep c ∨ c = '\n' then
    bumpPos (discardTok (addDiag p .garbageDiscarded))
  else
    { p with tok := p.tok ++ [c], line_pos := p.line_pos + 1 }

/-- The per-character dispatch of `GenericDocument::LoadFromDataStream`'s
inner loop: route the character to the handler of the current state. -/
def processChar (p : DocumentParser) (c : Char) : DocumentParser :=
  match p.partial_tok_type with
  | .NONE => BeginToken p c
  | .COMMENT_SEMICOLON | .COMMENT_SLASH => UpdateComment p c
  | .STRING_QUOTED | .STRING_NAKED => UpdateString p c
  | .NUMBER | .NUMBER_DOT => UpdateNumber p c
  | .BOOL_TRUE | .BOOL_FALSE => UpdateBool p c
  | .KEYWORD => UpdateKeyword p c
  | .TITLE_STRING => UpdateTitle p c
  | .GARBAGE => UpdateGarbage p c

/-- The parser context at the start of a load: reset document, empty
accumulator, state NONE, no title captured. -/
def initialParser (options : Options) : DocumentParser :=
  { options := options
    doc := ⟨[], []⟩
    tok := []
    line_num := 0
    line_pos := 0
    partial_tok_type := .NONE
    title_found := false
    diags := [] }

/-- Run the parser over a whole character stream (the chunked `read` loop
processes characters strictly in order, so it is a fold). -/
def runParser (input : List Char) (options : Options) : DocumentParser :=
  input.foldl processChar (initialParser options)

/-- The check `tokens.size() == 0 || tokens.back().type != LINEBREAK`
guarding the synthetic trailing LINEBREAK, phrased positively. -/
def endsWithLinebreak (l : List Token) : Bool :=
  match l.getLast? with
  | some t => t.type = .LINEBREAK
  | none => false

/-- The tail of `LoadFromDataStream`: append one synthetic LINEBREAK when
the token list is empty or does not already end in one. -/
def ensureLinebreak (doc : GenericDocument) : GenericDocument :=
  if endsWithLinebreak doc.tokens then doc
  else { doc with tokens := doc.tokens ++ [⟨.LINEBREAK, 0⟩] }

/-- `GenericDocument::LoadFromDataStream` over an in-memory byte stream. -/
def LoadFromString (input : List Char) (options : Options) : GenericDocument :=
  ensureLinebreak (runParser input options).doc

/-- All option flags off (`options = 0`). -/
def optsNone : Options := ⟨false, false, false⟩

/-- Only `OPTION_ALLOW_NAKED_STRINGS` set. -/
def optsNaked : Options := ⟨false, true, false⟩

/-- Only `OPTION_FIRST_LINE_IS_TITLE` set. -/
def optsTitle : Options := ⟨false, false, true⟩

/-- Read the NUL-terminated pool string starting at offset `ofs`
(`string_pool.data() + offset` followed by `strlen`). -/
def poolStr (pool : List Char) (ofs : Nat) : List Char :=
  (pool.drop ofs).takeWhile (fun c => !(c == NUL))

/-- `(size_t)tok.data` — the payload read back as a pool offset (payloads
used as offsets are non-negative integers). -/
def ratToOfs (q : ℚ) : Nat := q.num.toNat / q.den

/-- Modelled from the spec: `snprintf(buf, BUF_MAX, "%f", tok.data)` (libc,
not part of src/) — the value formatted as fixed-point decimal with six
digits after the point.  `|q| * 10^6` is computed on the numerator and
denominator and rounded half-up; exact for the payloads arising in this
file. -/
def formatFixed6 (q : ℚ) : List Char :=
  let neg := q.num < 0
  let m := (q.num.natAbs * 1000000 + q.den / 2) / q.den
  let ip := m / 1000000
  let fp := m % 1000000
  let fpStr := Nat.toDigits 10 fp
  let fracStr := List.replicate (6 - fpStr.length) '0' ++ fpStr
  (if neg then ['-'] else []) ++ Nat.toDigits 10 ip ++ '.' :: fracStr

/-- The serializer's per-line state: the pending separator and the output
accumulated so far. -/
structure SaveState where
  sep : List Char
  out : List Char
deriving DecidableEq, Repr

/-- One iteration of `GenericDocument::SaveToDataStream`'s token loop. -/
def saveToken (pool : List Char) (eol : List Char) (st : SaveState) (t : Token) : SaveState :=
  match t.type with
  | .LINEBREAK => ⟨[], st.out ++ eol⟩
  | .COMMENT => ⟨st.sep, st.out ++ ';' :: poolStr pool (ratToOfs t.data)⟩
  | .STRING => ⟨[','], st.out ++ st.sep ++ poolStr pool (ratToOfs t.data)⟩
  | .NUMBER => ⟨[','], st.out ++ st.sep ++ formatFixed6 t.data⟩
  | .BOOL => ⟨[','], st.out ++ st.sep ++ (if t.data = 1 then "true".toList else "false".toList)⟩
  | .KEYWORD => ⟨[' '], st.out ++ poolStr pool (ratToOfs t.data)⟩

/-- `GenericDocument::SaveToDataStream`, parameterized by the platform line
terminator `EOL_STR` (`\r\n` on win32, `\n` elsewhere). -/
def SaveToString (doc : GenericDocument) (eol : List Char) : List Char :=
  (doc.tokens.foldl (saveToken doc.string_pool eol) ⟨[], []⟩).out

/-- `GenericDocReader`: a tokenized document plus a cursor. -/
structure GenericDocReader where
  doc : GenericDocument
  pos : Nat
deriving DecidableEq, Repr

/-- Modelled from the spec: `GenericDocReader::EndOfFile(offset)` (declared
in the header, which is not under src/) — whether `pos + offset` is at or
past the end of the token list. -/
def GenericDocReader.EndOfFile (r : GenericDocReader) (offset : Nat) : Bool :=
  r.doc.tokens.length ≤ r.pos + offset

/-- Modelled from the spec: `GenericDocReader::GetTokType(offset)` (declared
in the header, which is not under src/) — the kind of the token at
`pos + offset`; callers guard with `EndOfFile` first. -/
def GenericDocReader.GetTokType (r : GenericDocReader) (offset : Nat) : Option TokenType :=
  (r.doc.tokens[r.pos + offset]?).map Token.type

/-- The loop of `GenericDocReader::CountLineArgs`:
`while (!EndOfFile(count) && GetTokType(count) != LINEBREAK) count++`. -/
def countLoop (r : GenericDocReader) (count : Nat) : Nat :=
  if r.EndOfFile count = false ∧ r.GetTokType count ≠ some .LINEBREAK then
    countLoop r (count + 1)
  else count
termination_by r.doc.tokens.length - (r.pos + count)
decreasing_by
  rename_i h
  simp only [GenericDocReader.EndOfFile, decide_eq_false_iff_not, not_le] at h
  omega

/-- `GenericDocReader::CountLineArgs` — the method only reads the cursor
(the loop counter is local), so it returns the count together with the
untouched reader. -/
def GenericDocReader.CountLineArgs (r : GenericDocReader) : Nat × GenericDocReader :=
  (countLoop r 0, r)

/-- Follows the spec's words (for comparison with `CountLineArgs`): the
number of tokens from the cursor up to but not including the next LINEBREAK
or end-of-stream. -/
def countLineArgsSpec (r : GenericDocReader) : Nat :=
  ((r.doc.tokens.drop r.pos).takeWhile (fun t => !(t.type == .LINEBREAK))).length

/-- Every COMMENT token is immediately followed by a LINEBREAK token. -/
def CommentLinebreakInv (l : List Token) : Prop :=
  ∀ i : Nat, (l[i]?).map Token.type = some .COMMENT →
    (l[i + 1]?).map Token.type = some .LINEBREAK

/-- The number of steps at which a run of the parser enters the
TITLE_STRING state. -/
def titleEntries : DocumentParser → List Char → Nat
  | _, [] => 0
  | p, c :: cs =>
    (if p.partial_tok_type ≠ .TITLE_STRING
        ∧ (processChar p c).partial_tok_type = .TITLE_STRING then 1 else 0)
      + titleEntries (processChar p c) cs

/-- The end-of-stream check, unfolded. -/
theorem endOfFile_true_iff (r : GenericDocReader) (offset : Nat) :
    r.EndOfFile offset = true ↔ r.doc.tokens.length ≤ r.pos + offset := by
  simp [GenericDocReader.EndOfFile]

/-- The negated end-of-stream check, unfolded. -/
theorem endOfFile_false_iff (r : GenericDocReader) (offset : Nat) :
    r.EndOfFile offset = false ↔ r.pos + offset < r.doc.tokens.length := by
  simp [GenericDocReader.EndOfFile]

/-- The counting loop of `CountLineArgs` computes the length of the
longest LINEBREAK-free prefix starting at `pos + count`. -/
theorem countLoop_spec (r : GenericDocReader) : ∀ (n count : Nat),
    r.doc.tokens.length - (r.pos + count) ≤ n →
    countLoop r count
      = count + ((r.doc.tokens.drop (r.pos + count)).takeWhile
          (fun t => !(t.type == .LINEBREAK))).length := by
  intro n
  induction n with
  | zero =>
    intro count h
    rw [countLoop]
    have hle : r.doc.tokens.length ≤ r.pos + count := by omega
    have hEof : ¬(r.EndOfFile count = false ∧ r.GetTokType count ≠ some .LINEBREAK) := by
      rintro ⟨hf, -⟩
      rw [endOfFile_false_iff] at hf
      omega
    rw [if_neg hEof, List.drop_eq_nil_of_le hle]
    simp
  | succ n ih =>
    intro count h
    rw [countLoop]
    by_cases hguard : r.EndOfFile count = false ∧ r.GetTokType count ≠ some .LINEBREAK
    · rw [if_pos hguard]
      obtain ⟨hEof, hTy⟩ := hguard
      have hlt : r.pos + count < r.doc.tokens.length := by
        rw [endOfFile_false_iff] at hEof
        exact hEof
      have hty2 : (r.doc.tokens[r.pos + count].type == TokenType.LINEBREAK) = false := by
        rw [GenericDocReader.GetTokType, List.getElem?_eq_getElem hlt] at hTy
        simp only [Option.map_some'] at hTy
        simpa using fun hx => hTy (by rw [hx])
      rw [List.drop_eq_getElem_cons hlt, List.takeWhile_cons, hty2]
      simp only [Bool.not_false, if_true]
      have h2 := ih (count + 1) (by omega)
      rw [show r.pos + (count + 1) = r.pos + count + 1 from rfl] at h2
      rw [h2]
      simp only [List.length_cons]
      omega
    · rw [if_neg hguard]
      rcases Decidable.not_and_iff_or_not.mp hguard with hEof | hTy
      · have hle : r.doc.tokens.length ≤ r.pos + count := by
          have ht : r.EndOfFile count = true := by
            cases hx : r.EndOfFile count
            · exact absurd hx hEof
            · rfl
          rw [endOfFile_true_iff] at ht
          exact ht
        rw [List.drop_eq_nil_of_le hle]
        simp
      · have hEq : r.GetTokType count = some .LINEBREAK := Decidable.not_not.mp hTy
        rw [GenericDocReader.GetTokType] at hEq
        obtain ⟨t, hsome, htype⟩ := Option.map_eq_some'.mp hEq
        have hlt : r.pos + count < r.doc.tokens.length := (List.getElem?_eq_some.mp hsome).1
        have hgetEq : r.doc.tokens[r.pos + count] = t := by
          have := List.getElem?_eq_getElem hlt
          rw [hsome] at this
          exact (Option.some.injEq _ _).mp this.symm
        rw [List.drop_eq_getElem_cons hlt, List.takeWhile_cons, hgetEq, htype]
        simp

/-- C9: `CountLineArgs` counts the tokens from the cursor up to but not
including the next LINEBREAK (or end of stream), leaves the reader's
cursor untouched, and returns 0 when the token at the cursor is already a
LINEBREAK. -/
theorem C9_count_line_args (r : GenericDocReader) :
    ((r.CountLineArgs).2 = r
      ∧ (r.CountLineArgs).1 = countLineArgsSpec r)
    ∧ (∀ t : Token, r.doc.tokens[r.pos]? = some t → t.type = .LINEBREAK
        → (r.CountLineArgs).1 = 0) := by
  have hmain : (r.CountLineArgs).1 = countLineArgsSpec r := by
    show countLoop r 0 = countLineArgsSpec r
    have h := countLoop_spec r (r.doc.tokens.length - (r.pos + 0)) 0 (le_refl _)
    rw [h]
    simp [countLineArgsSpec]
  refine ⟨⟨rfl, hmain⟩, fun t hsome htype => ?_⟩
  rw [hmain]
  unfold countLineArgsSpec
  have hlt : r.pos < r.doc.tokens.length := (List.getElem?_eq_some.mp hsome).1
  have hgetEq : r.doc.tokens[r.pos] = t := by
    have := List.getElem?_eq_getElem hlt
    rw [hsome] at this
    exact (Option.some.injEq _ _).mp this.symm
  rw [List.drop_eq_getElem_cons hlt, List.takeWhile_cons, hgetEq, htype]
  simp

/-- C9 witness: on a one-token document whose only token is a LINEBREAK,
the count is 0 and the cursor is unchanged. -/
theorem C9_count_line_args_witness :
    (GenericDocReader.CountLineArgs ⟨⟨[⟨.LINEBREAK, 0⟩], []⟩, 0⟩).1 = 0
    ∧ (GenericDocReader.CountLineArgs ⟨⟨[⟨.LINEBREAK, 0⟩], []⟩, 0⟩).2
        = ⟨⟨[⟨.LINEBREAK, 0⟩], []⟩, 0⟩ :=
  ⟨(C9_count_line_args ⟨⟨[⟨.LINEBREAK, 0⟩], []⟩, 0⟩).2 ⟨.LINEBREAK, 0⟩ rfl rfl,
   (C9_count_line_args ⟨⟨[⟨.LINEBREAK, 0⟩], []⟩, 0⟩).1.1⟩

/-- C1: tokenizing `key 1 2.5 "a b" true false` with all option flags off.
The code does NOT produce the claimed NUMBER(2.5) and STRING("a b"): the
digit `5` arriving in state NUMBER_DOT matches no case of `UpdateNumber`
and is dropped, so the buffered text `2.` parses to 2.0; and the space
inside the quoted string is replaced by a NUL byte in the accumulator, so
the pooled text at the STRING token's offset reads back as `a`.  This
theorem evaluates the code at the claim's input. -/
theorem C1_tokenize_example_eval :
    LoadFromString "key 1 2.5 \"a b\" true false".toList optsNone =
      ⟨[⟨.KEYWORD, 0⟩, ⟨.NUMBER, 1⟩, ⟨.NUMBER, 2⟩, ⟨.STRING, 4⟩,
        ⟨.BOOL, 1⟩, ⟨.BOOL, 0⟩, ⟨.LINEBREAK, 0⟩],
       "key".toList ++ [NUL] ++ "a".toList ++ [NUL] ++ "b".toList ++ [NUL]⟩
    ∧ poolStr (LoadFromString "key 1 2.5 \"a b\" true false".toList optsNone).string_pool 4
        = "a".toList :=
  ⟨rfl, rfl⟩

/-- C2: the claim that every digit arriving in state NUMBER/NUMBER_WITH_DOT
is appended to the accumulation buffer fails on the code: `UpdateNumber`'s
switch has no default case, so a digit leaves the state unchanged.  At the
failing input `12`, after the first character the parser is in NUMBER with
buffer `1`, and the second digit is dropped: the flushed token is
NUMBER(1.0), not NUMBER(12.0). -/
theorem C2_digit_dropped_eval :
    (runParser "12".toList optsNone).tok = ['1']
    ∧ (runParser "12".toList optsNone).partial_tok_type = .NUMBER
    ∧ LoadFromString "12\n".toList optsNone =
        ⟨[⟨.NUMBER, 1⟩, ⟨.LINEBREAK, 0⟩], []⟩ :=
  ⟨rfl, rfl, rfl⟩

/-- C3 counterexample: tokenizing the bytes `key` with no trailing newline
does NOT yield KEYWORD("key") followed by LINEBREAK — the partial token is
never flushed at end of input, so the result is just the synthetic
LINEBREAK. -/
theorem C3_eof_no_flush_counterexample :
    (LoadFromString "key".toList optsNone).tokens.map Token.type = [.LINEBREAK]
    ∧ (LoadFromString "key".toList optsNone).tokens.map Token.type
        ≠ [.KEYWORD, .LINEBREAK] :=
  ⟨rfl, by decide⟩

/-- C3 amended: when the input ends while the tokenizer is inside a partial
token, that token is discarded, not flushed: end of input appends at most
one synthetic LINEBREAK to whatever the character loop produced, and in
particular tokenizing `key` yields only LINEBREAK. -/
theorem C3_eof_discards_partial_token :
    (∀ (input : List Char) (options : Options),
      (LoadFromString input options).tokens = (runParser input options).doc.tokens
      ∨ (LoadFromString input options).tokens
          = (runParser input options).doc.tokens ++ [⟨.LINEBREAK, 0⟩])
    ∧ (LoadFromString "key".toList optsNone).tokens = [⟨.LINEBREAK, 0⟩] := by
  constructor
  · intro input options
    by_cases h : endsWithLinebreak (runParser input options).doc.tokens
    · left
      simp [LoadFromString, ensureLinebreak, h]
    · right
      simp [LoadFromString, ensureLinebreak, h]
  · rfl

/-- Tokens of `flushLinebreak`: the old list plus one LINEBREAK token. -/
@[simp] theorem flushLinebreak_tokens (p : DocumentParser) :
    (flushLinebreak p).doc.tokens = p.doc.tokens ++ [⟨.LINEBREAK, 0⟩] := rfl

/-- Tokens of `flushStringish`: the old list plus one token of kind `tt`. -/
@[simp] theorem flushStringish_tokens (p : DocumentParser) (tt : TokenType) :
    (flushStringish p tt).doc.tokens
      = p.doc.tokens ++ [⟨tt, (p.doc.string_pool.length : ℚ)⟩] := rfl

/-- Tokens of `flushNumber`: the old list plus one NUMBER token. -/
@[simp] theorem flushNumber_tokens (p : DocumentParser) :
    (flushNumber p).doc.tokens = p.doc.tokens ++ [⟨.NUMBER, parseReal p.tok⟩] := rfl

/-- Tokens of `pushTok`. -/
@[simp] theorem pushTok_tokens (p : DocumentParser) (t : Token) :
    (pushTok p t).doc.tokens = p.doc.tokens ++ [t] := rfl

/-- `addDiag` only records a diagnostic; the document is untouched. -/
@[simp] theorem addDiag_doc (p : DocumentParser) (k : DiagKind) :
    (addDiag p k).doc = p.doc := rfl

/-- `addDiag` does not change the partial-token state. -/
@[simp] theorem addDiag_partial (p : DocumentParser) (k : DiagKind) :
    (addDiag p k).partial_tok_type = p.partial_tok_type := rfl

/-- `addDiag` does not change the title flag. -/
@[simp] theorem addDiag_title (p : DocumentParser) (k : DiagKind) :
    (addDiag p k).title_found = p.title_found := rfl

/-- `bumpPos` does not change the document. -/
@[simp] theorem bumpPos_doc (q : DocumentParser) : (bumpPos q).doc = q.doc := rfl

/-- `bumpPos` does not change the partial-token state. -/
@[simp] theorem bumpPos_partial (q : DocumentParser) :
    (bumpPos q).partial_tok_type = q.partial_tok_type := rfl

/-- `bumpPos` does not change the title flag. -/
@[simp] theorem bumpPos_title (q : DocumentParser) :
    (bumpPos q).title_found = q.title_found := rfl

/-- `pushAccum` does not change the document. -/
@[simp] theorem pushAccum_doc (q : DocumentParser) (c : Char) :
    (pushAccum q c).doc = q.doc := rfl

/-- `pushAccum` does not change the partial-token state. -/
@[simp] theorem pushAccum_partial (q : DocumentParser) (c : Char) :
    (pushAccum q c).partial_tok_type = q.partial_tok_type := rfl

/-- `pushAccum` does not change the title flag. -/
@[simp] theorem pushAccum_title (q : DocumentParser) (c : Char) :
    (pushAccum q c).title_found = q.title_found := rfl

/-- `discardTok` does not change the document. -/
@[simp] theorem discardTok_doc (q : DocumentParser) : (discardTok q).doc = q.doc := rfl

/-- `discardTok` resets the partial-token state to NONE. -/
@[simp] theorem discardTok_partial (q : DocumentParser) :
    (discardTok q).partial_tok_type = .NONE := rfl

/-- `discardTok` does not change the title flag. -/
@[simp] theorem discardTok_title (q : DocumentParser) :
    (discardTok q).title_found = q.title_found := rfl

/-- `flushLinebreak` does not change the partial-token state. -/
@[simp] theorem flushLinebreak_partial (p : DocumentParser) :
    (flushLinebreak p).partial_tok_type = p.partial_tok_type := rfl

/-- `flushLinebreak` does not change the title flag. -/
@[simp] theorem flushLinebreak_title (p : DocumentParser) :
    (flushLinebreak p).title_found = p.title_found := rfl

/-- Pool of `flushStringish`: the accumulated text plus a NUL terminator
is appended. -/
@[simp] theorem flushStringish_pool (p : DocumentParser) (tt : TokenType) :
    (flushStringish p tt).doc.string_pool = p.doc.string_pool ++ p.tok ++ [NUL] := rfl

/-- `flushLinebreak` does not touch the string pool. -/
@[simp] theorem flushLinebreak_pool (p : DocumentParser) :
    (flushLinebreak p).doc.string_pool = p.doc.string_pool := rfl

/-- `flushStringish` resets the partial-token state to NONE. -/
@[simp] theorem flushStringish_partial (p : DocumentParser) (tt : TokenType) :
    (flushStringish p tt).partial_tok_type = .NONE := rfl

/-- `flushStringish` does not change the title flag. -/
@[simp] theorem flushStringish_title (p : DocumentParser) (tt : TokenType) :
    (flushStringish p tt).title_found = p.title_found := rfl

/-- `flushNumber` resets the partial-token state to NONE. -/
@[simp] theorem flushNumber_partial (p : DocumentParser) :
    (flushNumber p).partial_tok_type = .NONE := rfl

/-- `flushNumber` does not change the title flag. -/
@[simp] theorem flushNumber_title (p : DocumentParser) :
    (flushNumber p).title_found = p.title_found := rfl

/-- `pushTok` does not change the partial-token state. -/
@[simp] theorem pushTok_partial (p : DocumentParser) (t : Token) :
    (pushTok p t).partial_tok_type = p.partial_tok_type := rfl

/-- `pushTok` does not change the title flag. -/
@[simp] theorem pushTok_title (p : DocumentParser) (t : Token) :
    (pushTok p t).title_found = p.title_found := rfl

/-- `boolDowngrade` does not change the document. -/
@[simp] theorem boolDowngrade_doc (p : DocumentParser) :
    (boolDowngrade p).doc = p.doc := by
  unfold boolDowngrade
  split_ifs <;> rfl

/-- `boolDowngrade` does not change the title flag. -/
@[simp] theorem boolDowngrade_title (p : DocumentParser) :
    (boolDowngrade p).title_found = p.title_found := by
  unfold boolDowngrade
  split_ifs <;> rfl

/-- `boolDowngrade` never yields the TITLE_STRING state. -/
@[simp] theorem boolDowngrade_partial_title_iff (p : DocumentParser) :
    (boolDowngrade p).partial_tok_type = .TITLE_STRING ↔ False := by
  unfold boolDowngrade
  split_ifs <;> simp

/-- Appending one non-COMMENT token preserves the COMMENT-then-LINEBREAK
invariant. -/
theorem CommentLinebreakInv.append_single {l : List Token} {t : Token}
    (ht : t.type ≠ .COMMENT) (h : CommentLinebreakInv l) :
    CommentLinebreakInv (l ++ [t]) := by
  intro i hi
  by_cases hlt : i < l.length
  · rw [List.getElem?_append_left hlt] at hi
    have h2 := h i hi
    rcases hx : l[i + 1]? with _ | t'
    · rw [hx] at h2; simp at h2
    · have hi1 : i + 1 < l.length := (List.getElem?_eq_some.mp hx).1
      rw [List.getElem?_append_left hi1]
      exact h2
  · rw [List.getElem?_append_right (Nat.le_of_not_lt hlt)] at hi
    by_cases h0 : i - l.length = 0
    · rw [h0] at hi
      simp at hi
      exact absurd hi ht
    · rw [List.getElem?_eq_none (by simp; omega)] at hi
      simp at hi

/-- Appending a pair whose second token is a LINEBREAK preserves the
COMMENT-then-LINEBREAK invariant (the first may be a COMMENT). -/
theorem CommentLinebreakInv.append_pair {l : List Token} {t1 t2 : Token}
    (h2 : t2.type = .LINEBREAK) (h : CommentLinebreakInv l) :
    CommentLinebreakInv ((l ++ [t1]) ++ [t2]) := by
  rw [List.append_assoc]
  intro i hi
  by_cases hlt : i < l.length
  · rw [List.getElem?_append_left hlt] at hi
    have hcom := h i hi
    rcases hx : l[i + 1]? with _ | t'
    · rw [hx] at hcom; simp at hcom
    · have hi1 : i + 1 < l.length := (List.getElem?_eq_some.mp hx).1
      rw [List.getElem?_append_left hi1]
      exact hcom
  · have hge := Nat.le_of_not_lt hlt
    rw [List.getElem?_append_right hge] at hi
    by_cases hk0 : i - l.length = 0
    · rw [List.getElem?_append_right (by omega : l.length ≤ i + 1)]
      have hk1 : i + 1 - l.length = 1 := by omega
      rw [hk1]
      simp [h2]
    · by_cases hk1 : i - l.length = 1
      · rw [hk1] at hi
        simp at hi
        rw [h2] at hi
        cases hi
      · rw [List.getElem?_eq_none (by simp; omega)] at hi
        simp at hi

/-- `strayDiagWrap` only records a diagnostic; the document is untouched. -/
@[simp] theorem strayDiagWrap_doc (k : DiagKind) (q : DocumentParser) :
    (strayDiagWrap k q).doc = q.doc := by
  unfold strayDiagWrap
  split_ifs <;> rfl

/-- `strayDiagWrap` does not change the partial-token state. -/
@[simp] theorem strayDiagWrap_partial (k : DiagKind) (q : DocumentParser) :
    (strayDiagWrap k q).partial_tok_type = q.partial_tok_type := by
  unfold strayDiagWrap
  split_ifs <;> rfl

/-- `strayDiagWrap` does not change the title flag. -/
@[simp] theorem strayDiagWrap_title (k : DiagKind) (q : DocumentParser) :
    (strayDiagWrap k q).title_found = q.title_found := by
  unfold strayDiagWrap
  split_ifs <;> rfl

/-- The title override does not touch the document. -/
@[simp] theorem titleOverride_doc (q : DocumentParser) :
    (titleOverride q).doc = q.doc := by
  unfold titleOverride
  split_ifs <;> rfl

/-- The switch of `BeginToken`: it leaves the token list unchanged or
appends one LINEBREAK token, never changes the title flag, and never
enters the TITLE_STRING state by itself. -/
theorem beginTokenSwitch_facts (p : DocumentParser) (c : Char) :
    ((BeginTokenSwitch p c).doc.tokens = p.doc.tokens
      ∨ (BeginTokenSwitch p c).doc.tokens = p.doc.tokens ++ [⟨.LINEBREAK, 0⟩])
    ∧ (BeginTokenSwitch p c).title_found = p.title_found
    ∧ ((BeginTokenSwitch p c).partial_tok_type = .TITLE_STRING
        → p.partial_tok_type = .TITLE_STRING) := by
  unfold BeginTokenSwitch
  by_cases h1 : c = '\r'
  · rw [if_pos h1]; exact ⟨Or.inl rfl, rfl, fun h => h⟩
  rw [if_neg h1]
  by_cases h2 : isSep c = true
  · rw [if_pos h2]; exact ⟨Or.inl rfl, rfl, fun h => h⟩
  rw [if_neg h2]
  by_cases h3 : c = '\n'
  · rw [if_pos h3]; exact ⟨Or.inr rfl, rfl, fun h => h⟩
  rw [if_neg h3]
  by_cases h4 : c = ';'
  · rw [if_pos h4]; exact ⟨Or.inl rfl, rfl, fun h => nomatch h⟩
  rw [if_neg h4]
  by_cases h5 : c = '/'
  · rw [if_pos h5]
    by_cases h6 : p.options.allow_slash_comments = true
    · rw [if_pos h6]; exact ⟨Or.inl rfl, rfl, fun h => nomatch h⟩
    rw [if_neg h6]
    by_cases h7 : p.options.allow_naked_strings = true
        ∧ (p.doc.tokens ≠ [] ∧ (p.doc.tokens.getLast?.map Token.type) ≠ some .LINEBREAK)
    · rw [if_pos h7]; exact ⟨Or.inl rfl, rfl, fun h => nomatch h⟩
    · rw [if_neg h7]; exact ⟨Or.inl rfl, rfl, fun h => nomatch h⟩
  rw [if_neg h5]
  by_cases h8 : c = '"'
  · rw [if_pos h8]; exact ⟨Or.inl rfl, rfl, fun h => nomatch h⟩
  rw [if_neg h8]
  by_cases h9 : c = '.'
  · rw [if_pos h9]; exact ⟨Or.inl rfl, rfl, fun h => nomatch h⟩
  rw [if_neg h9]
  by_cases h10 : c = '-'
  · rw [if_pos h10]; exact ⟨Or.inl rfl, rfl, fun h => nomatch h⟩
  rw [if_neg h10]
  by_cases h11 : c = 't'
  · rw [if_pos h11]; exact ⟨Or.inl rfl, rfl, fun h => nomatch h⟩
  rw [if_neg h11]
  by_cases h12 : c = 'f'
  · rw [if_pos h12]; exact ⟨Or.inl rfl, rfl, fun h => nomatch h⟩
  rw [if_neg h12]
  by_cases h13 : isdigit c = true
  · rw [if_pos h13]; exact ⟨Or.inl rfl, rfl, fun h => nomatch h⟩
  rw [if_neg h13]
  by_cases h14 : isalpha c = true
      ∧ (p.doc.tokens = [] ∨ (p.doc.tokens.getLast?.map Token.type) = some .LINEBREAK)
  · rw [if_pos h14]; exact ⟨Or.inl rfl, rfl, fun h => nomatch h⟩
  rw [if_neg h14]
  by_cases h15 : p.options.allow_naked_strings = true
  · rw [if_pos h15]; exact ⟨Or.inl rfl, rfl, fun h => nomatch h⟩
  · rw [if_neg h15]; exact ⟨Or.inl rfl, rfl, fun h => nomatch h⟩

/-- `UpdateComment`: it leaves the token list unchanged or appends a
COMMENT token immediately followed by a LINEBREAK token, never changes the
title flag, and never enters the TITLE_STRING state by itself. -/
theorem updateComment_facts (p : DocumentParser) (c : Char) :
    ((UpdateComment p c).doc.tokens = p.doc.tokens
      ∨ (UpdateComment p c).doc.tokens
          = (p.doc.tokens ++ [⟨.COMMENT, (p.doc.string_pool.length : ℚ)⟩]) ++ [⟨.LINEBREAK, 0⟩])
    ∧ (UpdateComment p c).title_found = p.title_found
    ∧ ((UpdateComment p c).partial_tok_type = .TITLE_STRING
        → p.partial_tok_type = .TITLE_STRING) := by
  simp only [UpdateComment]
  split_ifs <;> simp [flushLinebreak, flushStringish]

/-- The switch of `UpdateString` leaves the token list unchanged, appends a
STRING token, or appends a STRING token followed by a LINEBREAK token. -/
theorem updateStringSwitch_facts (p : DocumentParser) (c : Char) :
    ((UpdateStringSwitch p c).doc.tokens = p.doc.tokens
      ∨ (UpdateStringSwitch p c).doc.tokens
          = p.doc.tokens ++ [⟨.STRING, (p.doc.string_pool.length : ℚ)⟩]
      ∨ (UpdateStringSwitch p c).doc.tokens
          = (p.doc.tokens ++ [⟨.STRING, (p.doc.string_pool.length : ℚ)⟩]) ++ [⟨.LINEBREAK, 0⟩])
    ∧ (UpdateStringSwitch p c).title_found = p.title_found
    ∧ ((UpdateStringSwitch p c).partial_tok_type = .TITLE_STRING
        → p.partial_tok_type = .TITLE_STRING) := by
  simp only [UpdateStringSwitch]
  split_ifs <;> simp [flushLinebreak, flushStringish, addDiag, bumpPos]

/-- The switch of `UpdateNumber` leaves the token list unchanged, appends a
NUMBER token, or appends a NUMBER token followed by a LINEBREAK token. -/
theorem updateNumberSwitch_facts (p : DocumentParser) (c : Char) :
    ((UpdateNumberSwitch p c).doc.tokens = p.doc.tokens
      ∨ (UpdateNumberSwitch p c).doc.tokens = p.doc.tokens ++ [⟨.NUMBER, parseReal p.tok⟩]
      ∨ (UpdateNumberSwitch p c).doc.tokens
          = (p.doc.tokens ++ [⟨.NUMBER, parseReal p.tok⟩]) ++ [⟨.LINEBREAK, 0⟩])
    ∧ (UpdateNumberSwitch p c).title_found = p.title_found
    ∧ ((UpdateNumberSwitch p c).partial_tok_type = .TITLE_STRING
        → p.partial_tok_type = .TITLE_STRING) := by
  simp only [UpdateNumberSwitch]
  split_ifs <;> simp [flushLinebreak, flushNumber, bumpPos]

/-- The switch of `UpdateBool`: it leaves the token list unchanged or
appends a single BOOL or LINEBREAK token, never changes the title flag,
and never enters the TITLE_STRING state. -/
theorem updateBoolSwitch_facts (p : DocumentParser) (c : Char) :
    ((UpdateBoolSwitch p c).doc.tokens = p.doc.tokens
      ∨ (UpdateBoolSwitch p c).doc.tokens = p.doc.tokens ++ [⟨.BOOL, 1⟩]
      ∨ (UpdateBoolSwitch p c).doc.tokens = p.doc.tokens ++ [⟨.BOOL, 0⟩]
      ∨ (UpdateBoolSwitch p c).doc.tokens = p.doc.tokens ++ [⟨.LINEBREAK, 0⟩])
    ∧ (UpdateBoolSwitch p c).title_found = p.title_found
    ∧ ((UpdateBoolSwitch p c).partial_tok_type = .TITLE_STRING
        → p.partial_tok_type = .TITLE_STRING) := by
  unfold UpdateBoolSwitch
  by_cases h1 : c = '\r'
  · rw [if_pos h1]; exact ⟨Or.inl rfl, rfl, fun h => h⟩
  rw [if_neg h1]
  by_cases h2 : isSep c = true
  · rw [if_pos h2]; exact ⟨Or.inl rfl, rfl, fun h => nomatch h⟩
  rw [if_neg h2]
  by_cases h3 : c = '\n'
  · rw [if_pos h3]; exact ⟨Or.inr (Or.inr (Or.inr rfl)), rfl, fun h => nomatch h⟩
  rw [if_neg h3]
  by_cases h4 : c = 'r'
  · rw [if_pos h4]
    by_cases hd4 : p.partial_tok_type ≠ .BOOL_TRUE ∨ p.tok.length ≠ 1
    · rw [if_pos hd4]
      exact ⟨Or.inl (by simp), by simp, by simp⟩
    · rw [if_neg hd4]; exact ⟨Or.inl rfl, rfl, fun h => h⟩
  rw [if_neg h4]
  by_cases h5 : c = 'u'
  · rw [if_pos h5]
    by_cases hd5 : p.partial_tok_type ≠ .BOOL_TRUE ∨ p.tok.length ≠ 2
    · rw [if_pos hd5]
      exact ⟨Or.inl (by simp), by simp, by simp⟩
    · rw [if_neg hd5]; exact ⟨Or.inl rfl, rfl, fun h => h⟩
  rw [if_neg h5]
  by_cases h6 : c = 'a'
  · rw [if_pos h6]
    by_cases hd6 : p.partial_tok_type ≠ .BOOL_FALSE ∨ p.tok.length ≠ 1
    · rw [if_pos hd6]
      exact ⟨Or.inl (by simp), by simp, by simp⟩
    · rw [if_neg hd6]; exact ⟨Or.inl rfl, rfl, fun h => h⟩
  rw [if_neg h6]
  by_cases h7 : c = 'l'
  · rw [if_pos h7]
    by_cases hd7 : p.partial_tok_type ≠ .BOOL_FALSE ∨ p.tok.length ≠ 2
    · rw [if_pos hd7]
      exact ⟨Or.inl (by simp), by simp, by simp⟩
    · rw [if_neg hd7]; exact ⟨Or.inl rfl, rfl, fun h => h⟩
  rw [if_neg h7]
  by_cases h8 : c = 's'
  · rw [if_pos h8]
    by_cases hd8 : p.partial_tok_type ≠ .BOOL_FALSE ∨ p.tok.length ≠ 3
    · rw [if_pos hd8]
      exact ⟨Or.inl (by simp), by simp, by simp⟩
    · rw [if_neg hd8]; exact ⟨Or.inl rfl, rfl, fun h => h⟩
  rw [if_neg h8]
  by_cases h9 : c = 'e'
  · rw [if_pos h9]
    by_cases h10 : p.partial_tok_type = .BOOL_TRUE ∧ p.tok.length = 3
    · rw [if_pos h10]; exact ⟨Or.inr (Or.inl rfl), rfl, fun h => nomatch h⟩
    rw [if_neg h10]
    by_cases h11 : p.partial_tok_type = .BOOL_FALSE ∧ p.tok.length = 4
    · rw [if_pos h11]; exact ⟨Or.inr (Or.inr (Or.inl rfl)), rfl, fun h => nomatch h⟩
    · rw [if_neg h11]
      exact ⟨Or.inl (by simp), by simp, by simp⟩
  · rw [if_neg h9]
    exact ⟨Or.inl (by simp), by simp, by simp⟩

/-- The switch of `UpdateKeyword` leaves the token list unchanged, appends
a KEYWORD token, or appends a KEYWORD token followed by a LINEBREAK
token. -/
theorem updateKeywordSwitch_facts (p : DocumentParser) (c : Char) :
    ((UpdateKeywordSwitch p c).doc.tokens = p.doc.tokens
      ∨ (UpdateKeywordSwitch p c).doc.tokens
          = p.doc.tokens ++ [⟨.KEYWORD, (p.doc.string_pool.length : ℚ)⟩]
      ∨ (UpdateKeywordSwitch p c).doc.tokens
          = (p.doc.tokens ++ [⟨.KEYWORD, (p.doc.string_pool.length : ℚ)⟩]) ++ [⟨.LINEBREAK, 0⟩])
    ∧ (UpdateKeywordSwitch p c).title_found = p.title_found
    ∧ ((UpdateKeywordSwitch p c).partial_tok_type = .TITLE_STRING
        → p.partial_tok_type = .TITLE_STRING) := by
  simp only [UpdateKeywordSwitch]
  split_ifs <;> simp [flushLinebreak, flushStringish, bumpPos, pushAccum, apply_ite]

/-- `UpdateTitle` leaves the token list unchanged or appends a STRING token
followed by a LINEBREAK token. -/
theorem updateTitle_facts (p : DocumentParser) (c : Char) :
    ((UpdateTitle p c).doc.tokens = p.doc.tokens
      ∨ (UpdateTitle p c).doc.tokens
          = (p.doc.tokens ++ [⟨.STRING, (p.doc.string_pool.length : ℚ)⟩]) ++ [⟨.LINEBREAK, 0⟩])
    ∧ (UpdateTitle p c).title_found = p.title_found := by
  simp only [UpdateTitle]
  split_ifs <;> simp [flushLinebreak, flushStringish]

/-- `UpdateGarbage` never touches the document. -/
@[simp] theorem updateGarbage_doc (p : DocumentParser) (c : Char) :
    (UpdateGarbage p c).doc = p.doc := by
  simp only [UpdateGarbage]
  split_ifs <;> rfl

/-- `UpdateGarbage` does not change the title flag. -/
@[simp] theorem updateGarbage_title (p : DocumentParser) (c : Char) :
    (UpdateGarbage p c).title_found = p.title_found := by
  simp only [UpdateGarbage]
  split_ifs <;> rfl

/-- `UpdateGarbage` never enters the TITLE_STRING state by itself. -/
theorem updateGarbage_partial (p : DocumentParser) (c : Char) :
    (UpdateGarbage p c).partial_tok_type = .TITLE_STRING
      → p.partial_tok_type = .TITLE_STRING := by
  simp only [UpdateGarbage]
  split_ifs <;> simp

/-- `UpdateTitle` keeps the partial state or resets it to NONE. -/
theorem updateTitle_partial (p : DocumentParser) (c : Char) :
    (UpdateTitle p c).partial_tok_type = .TITLE_STRING
      → p.partial_tok_type = .TITLE_STRING ∨ False := by
  simp only [UpdateTitle]
  split_ifs <;> simp

/-- `BeginToken` preserves the COMMENT-then-LINEBREAK invariant. -/
theorem CommentLinebreakInv.beginToken {p : DocumentParser} {c : Char}
    (h : CommentLinebreakInv p.doc.tokens) :
    CommentLinebreakInv (BeginToken p c).doc.tokens := by
  unfold BeginToken
  rw [strayDiagWrap_doc, titleOverride_doc]
  rcases (beginTokenSwitch_facts p c).1 with hs | hs <;> rw [hs]
  · exact h
  · exact h.append_single (by simp)

/-- `UpdateComment` preserves the COMMENT-then-LINEBREAK invariant: the
COMMENT token is only ever flushed together with the LINEBREAK that ends
its line. -/
theorem CommentLinebreakInv.updateComment {p : DocumentParser} {c : Char}
    (h : CommentLinebreakInv p.doc.tokens) :
    CommentLinebreakInv (UpdateComment p c).doc.tokens := by
  rcases (updateComment_facts p c).1 with hs | hs <;> rw [hs]
  · exact h
  · exact h.append_pair rfl

/-- `UpdateString` preserves the COMMENT-then-LINEBREAK invariant. -/
theorem CommentLinebreakInv.updateString {p : DocumentParser} {c : Char}
    (h : CommentLinebreakInv p.doc.tokens) :
    CommentLinebreakInv (UpdateString p c).doc.tokens := by
  unfold UpdateString
  rw [strayDiagWrap_doc]
  rcases (updateStringSwitch_facts p c).1 with hs | hs | hs <;> rw [hs]
  · exact h
  · exact h.append_single (by simp)
  · exact h.append_pair rfl

/-- `UpdateNumber` preserves the COMMENT-then-LINEBREAK invariant. -/
theorem CommentLinebreakInv.updateNumber {p : DocumentParser} {c : Char}
    (h : CommentLinebreakInv p.doc.tokens) :
    CommentLinebreakInv (UpdateNumber p c).doc.tokens := by
  unfold UpdateNumber
  rw [strayDiagWrap_doc]
  rcases (updateNumberSwitch_facts p c).1 with hs | hs | hs <;> rw [hs]
  · exact h
  · exact h.append_single (by simp)
  · exact h.append_pair rfl

/-- `UpdateBool` preserves the COMMENT-then-LINEBREAK invariant. -/
theorem CommentLinebreakInv.updateBool {p : DocumentParser} {c : Char}
    (h : CommentLinebreakInv p.doc.tokens) :
    CommentLinebreakInv (UpdateBool p c).doc.tokens := by
  unfold UpdateBool
  rw [strayDiagWrap_doc]
  rcases (updateBoolSwitch_facts p c).1 with hs | hs | hs | hs <;> rw [hs]
  · exact h
  · exact h.append_single (by simp)
  · exact h.append_single (by simp)
  · exact h.append_single (by simp)

/-- `UpdateKeyword` preserves the COMMENT-then-LINEBREAK invariant. -/
theorem CommentLinebreakInv.updateKeyword {p : DocumentParser} {c : Char}
    (h : CommentLinebreakInv p.doc.tokens) :
    CommentLinebreakInv (UpdateKeyword p c).doc.tokens := by
  unfold UpdateKeyword
  rw [strayDiagWrap_doc]
  rcases (updateKeywordSwitch_facts p c).1 with hs | hs | hs <;> rw [hs]
  · exact h
  · exact h.append_single (by simp)
  · exact h.append_pair rfl

/-- `UpdateTitle` preserves the COMMENT-then-LINEBREAK invariant. -/
theorem CommentLinebreakInv.updateTitle {p : DocumentParser} {c : Char}
    (h : CommentLinebreakInv p.doc.tokens) :
    CommentLinebreakInv (UpdateTitle p c).doc.tokens := by
  rcases (updateTitle_facts p c).1 with hs | hs <;> rw [hs]
  · exact h
  · exact h.append_pair rfl

/-- `UpdateGarbage` preserves the COMMENT-then-LINEBREAK invariant (it
never emits a token). -/
theorem CommentLinebreakInv.updateGarbage {p : DocumentParser} {c : Char}
    (h : CommentLinebreakInv p.doc.tokens) :
    CommentLinebreakInv (UpdateGarbage p c).doc.tokens := by
  rw [updateGarbage_doc]
  exact h

/-- One parser step preserves the COMMENT-then-LINEBREAK invariant. -/
theorem CommentLinebreakInv.processChar {p : DocumentParser} {c : Char}
    (h : CommentLinebreakInv p.doc.tokens) :
    CommentLinebreakInv (GFF.processChar p c).doc.tokens := by
  unfold GFF.processChar
  cases hpt : p.partial_tok_type
  case NONE => exact h.beginToken
  case COMMENT_SEMICOLON => exact h.updateComment
  case COMMENT_SLASH => exact h.updateComment
  case STRING_QUOTED => exact h.updateString
  case STRING_NAKED => exact h.updateString
  case TITLE_STRING => exact h.updateTitle
  case NUMBER => exact h.updateNumber
  case NUMBER_DOT => exact h.updateNumber
  case KEYWORD => exact h.updateKeyword
  case BOOL_TRUE => exact h.updateBool
  case BOOL_FALSE => exact h.updateBool
  case GARBAGE => exact h.updateGarbage

/-- A whole run of the parser preserves the COMMENT-then-LINEBREAK
invariant. -/
theorem CommentLinebreakInv.runParser (input : List Char) (options : Options) :
    CommentLinebreakInv (GFF.runParser input options).doc.tokens := by
  suffices h : ∀ p : DocumentParser, CommentLinebreakInv p.doc.tokens →
      CommentLinebreakInv (input.foldl GFF.processChar p).doc.tokens by
    refine h _ ?_
    intro i hi
    simp [initialParser] at hi
  induction input with
  | nil => intro p hp; exact hp
  | cons c cs ih => intro p hp; exact ih _ hp.processChar

/-- If the title override fires, the flag was clear and is now set; if it
does not, the state is unchanged. -/
theorem titleOverride_found_mono (q : DocumentParser) (hq : q.title_found = true) :
    (titleOverride q).title_found = true := by
  unfold titleOverride
  split_ifs with h
  · rfl
  · exact hq

/-- The title override is the only way `titleOverride` yields TITLE_STRING:
either its input was already in that state, or the override fired, setting
the flag that was previously clear. -/
theorem titleOverride_entry (q : DocumentParser) :
    (titleOverride q).partial_tok_type = .TITLE_STRING
      → q.partial_tok_type = .TITLE_STRING
        ∨ ((titleOverride q).title_found = true ∧ q.title_found = false) := by
  unfold titleOverride
  split_ifs with h
  · intro _
    exact Or.inr ⟨rfl, h.2.1⟩
  · intro hT
    exact Or.inl hT

/-- One parser step never clears the title flag. -/
theorem processChar_found_mono (p : DocumentParser) (c : Char)
    (hf : p.title_found = true) : (processChar p c).title_found = true := by
  unfold processChar
  cases hpt : p.partial_tok_type
  case NONE =>
    show (BeginToken p c).title_found = true
    unfold BeginToken
    rw [strayDiagWrap_title]
    refine titleOverride_found_mono _ ?_
    rw [(beginTokenSwitch_facts p c).2.1]
    exact hf
  case COMMENT_SEMICOLON =>
    show (UpdateComment p c).title_found = true
    rw [(updateComment_facts p c).2.1]; exact hf
  case COMMENT_SLASH =>
    show (UpdateComment p c).title_found = true
    rw [(updateComment_facts p c).2.1]; exact hf
  case STRING_QUOTED =>
    show (UpdateString p c).title_found = true
    unfold UpdateString
    rw [strayDiagWrap_title, (updateStringSwitch_facts p c).2.1]; exact hf
  case STRING_NAKED =>
    show (UpdateString p c).title_found = true
    unfold UpdateString
    rw [strayDiagWrap_title, (updateStringSwitch_facts p c).2.1]; exact hf
  case NUMBER =>
    show (UpdateNumber p c).title_found = true
    unfold UpdateNumber
    rw [strayDiagWrap_title, (updateNumberSwitch_facts p c).2.1]; exact hf
  case NUMBER_DOT =>
    show (UpdateNumber p c).title_found = true
    unfold UpdateNumber
    rw [strayDiagWrap_title, (updateNumberSwitch_facts p c).2.1]; exact hf
  case BOOL_TRUE =>
    show (UpdateBool p c).title_found = true
    unfold UpdateBool
    rw [strayDiagWrap_title, (updateBoolSwitch_facts p c).2.1]; exact hf
  case BOOL_FALSE =>
    show (UpdateBool p c).title_found = true
    unfold UpdateBool
    rw [strayDiagWrap_title, (updateBoolSwitch_facts p c).2.1]; exact hf
  case KEYWORD =>
    show (UpdateKeyword p c).title_found = true
    unfold UpdateKeyword
    rw [strayDiagWrap_title, (updateKeywordSwitch_facts p c).2.1]; exact hf
  case TITLE_STRING =>
    show (UpdateTitle p c).title_found = true
    rw [(updateTitle_facts p c).2]; exact hf
  case GARBAGE =>
    show (UpdateGarbage p c).title_found = true
    rw [updateGarbage_title]; exact hf

/-- A parser step enters the TITLE_STRING state only from the title
override, which also flips the title flag from clear to set. -/
theorem processChar_entry (p : DocumentParser) (c : Char) :
    (processChar p c).partial_tok_type = .TITLE_STRING
      → p.partial_tok_type = .TITLE_STRING
        ∨ ((processChar p c).title_found = true ∧ p.title_found = false) := by
  unfold processChar
  cases hpt : p.partial_tok_type
  case NONE =>
    intro hT
    replace hT : (BeginToken p c).partial_tok_type = .TITLE_STRING := hT
    have hT2 : (titleOverride (BeginTokenSwitch p c)).partial_tok_type = .TITLE_STRING := by
      simp only [BeginToken, strayDiagWrap_partial] at hT
      exact hT
    rcases titleOverride_entry _ hT2 with hsw | ⟨hfound, hffalse⟩
    · exact Or.inl (hpt ▸ (beginTokenSwitch_facts p c).2.2 hsw)
    · refine Or.inr ⟨?_, ?_⟩
      · show (BeginToken p c).title_found = true
        simp only [BeginToken, strayDiagWrap_title]
        exact hfound
      · rw [← (beginTokenSwitch_facts p c).2.1]
        exact hffalse
  case COMMENT_SEMICOLON =>
    intro hT
    exact Or.inl (hpt ▸ (updateComment_facts p c).2.2 hT)
  case COMMENT_SLASH =>
    intro hT
    exact Or.inl (hpt ▸ (updateComment_facts p c).2.2 hT)
  case STRING_QUOTED =>
    intro hT
    replace hT : (UpdateString p c).partial_tok_type = .TITLE_STRING := hT
    simp only [UpdateString, strayDiagWrap_partial] at hT
    exact Or.inl (hpt ▸ (updateStringSwitch_facts p c).2.2 hT)
  case STRING_NAKED =>
    intro hT
    replace hT : (UpdateString p c).partial_tok_type = .TITLE_STRING := hT
    simp only [UpdateString, strayDiagWrap_partial] at hT
    exact Or.inl (hpt ▸ (updateStringSwitch_facts p c).2.2 hT)
  case NUMBER =>
    intro hT
    replace hT : (UpdateNumber p c).partial_tok_type = .TITLE_STRING := hT
    simp only [UpdateNumber, strayDiagWrap_partial] at hT
    exact Or.inl (hpt ▸ (updateNumberSwitch_facts p c).2.2 hT)
  case NUMBER_DOT =>
    intro hT
    replace hT : (UpdateNumber p c).partial_tok_type = .TITLE_STRING := hT
    simp only [UpdateNumber, strayDiagWrap_partial] at hT
    exact Or.inl (hpt ▸ (updateNumberSwitch_facts p c).2.2 hT)
  case BOOL_TRUE =>
    intro hT
    replace hT : (UpdateBool p c).partial_tok_type = .TITLE_STRING := hT
    simp only [UpdateBool, strayDiagWrap_partial] at hT
    exact Or.inl (hpt ▸ (updateBoolSwitch_facts p c).2.2 hT)
  case BOOL_FALSE =>
    intro hT
    replace hT : (UpdateBool p c).partial_tok_type = .TITLE_STRING := hT
    simp only [UpdateBool, strayDiagWrap_partial] at hT
    exact Or.inl (hpt ▸ (updateBoolSwitch_facts p c).2.2 hT)
  case KEYWORD =>
    intro hT
    replace hT : (UpdateKeyword p c).partial_tok_type = .TITLE_STRING := hT
    simp only [UpdateKeyword, strayDiagWrap_partial] at hT
    exact Or.inl (hpt ▸ (updateKeywordSwitch_facts p c).2.2 hT)
  case TITLE_STRING =>
    intro _
    exact Or.inl rfl
  case GARBAGE =>
    intro hT
    exact Or.inl (hpt ▸ updateGarbage_partial p c hT)

/-- Over any suffix of input, the parser enters TITLE_STRING at most once,
and not at all when the title flag is already set. -/
theorem titleEntries_le (cs : List Char) : ∀ p : DocumentParser,
    titleEntries p cs ≤ (if p.title_found = true then 0 else 1) := by
  induction cs with
  | nil =>
    intro p
    simp [titleEntries]
  | cons c cs ih =>
    intro p
    simp only [titleEntries]
    by_cases hf : p.title_found = true
    · rw [if_pos hf]
      have hind : ¬(p.partial_tok_type ≠ .TITLE_STRING
          ∧ (processChar p c).partial_tok_type = .TITLE_STRING) := by
        rintro ⟨hne, hT⟩
        rcases processChar_entry p c hT with h | ⟨-, hff⟩
        · exact hne h
        · rw [hf] at hff
          exact Bool.noConfusion hff
      rw [if_neg hind]
      have h2 := ih (processChar p c)
      rw [if_pos (processChar_found_mono p c hf)] at h2
      omega
    · rw [if_neg hf]
      by_cases hent : (p.partial_tok_type ≠ .TITLE_STRING
          ∧ (processChar p c).partial_tok_type = .TITLE_STRING)
      · rw [if_pos hent]
        have hfound : (processChar p c).title_found = true := by
          rcases processChar_entry p c hent.2 with h | ⟨hf2, -⟩
          · exact absurd h hent.1
          · exact hf2
        have h2 := ih (processChar p c)
        rw [if_pos hfound] at h2
        omega
      · rw [if_neg hent]
        have h2 := ih (processChar p c)
        have h3 : titleEntries (GFF.processChar p c) cs ≤ 1 := by
          refine le_trans h2 ?_
          split_ifs <;> omega
        omega

/-- The trailing-LINEBREAK check holds exactly when the last token's kind
maps to LINEBREAK. -/
theorem endsWithLinebreak_iff (l : List Token) :
    endsWithLinebreak l = true ↔ l.getLast?.map Token.type = some .LINEBREAK := by
  unfold endsWithLinebreak
  split
  next t heq => simp [heq]
  next heq => simp [heq]

/-- C4: for every input byte stream and every combination of option flags,
the token list produced by tokenization is non-empty and ends in a
LINEBREAK token. -/
theorem C4_always_ends_with_linebreak (input : List Char) (options : Options) :
    (LoadFromString input options).tokens ≠ []
    ∧ ((LoadFromString input options).tokens.getLast?.map Token.type)
        = some .LINEBREAK := by
  unfold LoadFromString ensureLinebreak
  by_cases h : endsWithLinebreak (runParser input options).doc.tokens = true
  · rw [if_pos h]
    rw [endsWithLinebreak_iff] at h
    refine ⟨?_, h⟩
    intro hnil
    rw [hnil] at h
    simp at h
  · rw [if_neg h]
    exact ⟨by simp, by simp [List.getLast?_concat]⟩

/-- C5 counterexample: a keyword containing a non-alphanumeric character is
NOT flushed as a KEYWORD at the next separator.  On input `a$ \n` (flags
off) the partial token `a$` is downgraded to GARBAGE and discarded at the
space: the output contains no KEYWORD token at all. -/
theorem C5_malformed_keyword_counterexample :
    (LoadFromString "a$ \n".toList optsNone).tokens.map Token.type = [.LINEBREAK]
    ∧ (LoadFromString "a$ \n".toList optsNone).tokens.map Token.type
        ≠ [.KEYWORD, .LINEBREAK] :=
  ⟨rfl, by decide⟩

/-- C5 amended: a non-alphanumeric character arriving in state KEYWORD is
still accumulated and a diagnostic is emitted, but the partial token
transitions to GARBAGE, and the GARBAGE handler discards it at the next
separator or newline — the malformed keyword is dropped, not flushed.
Concretely, `a$ b\n` (flags off) produces only the well-formed keyword of
the following line position, with `a$` absent from the document. -/
theorem C5_malformed_keyword_discarded :
    (∀ (p : DocumentParser) (c : Char),
      isSep c = false → c ≠ '\r' → c ≠ '\n' → isalnum c = false →
      (UpdateKeyword p c).partial_tok_type = .GARBAGE
      ∧ (UpdateKeyword p c).tok = p.tok ++ [c]
      ∧ (UpdateKeyword p c).diags
          = p.diags ++ [⟨p.line_num, p.line_pos + 1, .strayCharInKeyword⟩])
    ∧ (runParser "a$".toList optsNone).partial_tok_type = .GARBAGE
    ∧ (runParser "a$".toList optsNone).tok = ['a', '$']
    ∧ (runParser "a$".toList optsNone).diags = [⟨0, 2, .strayCharInKeyword⟩]
    ∧ LoadFromString "a$ b\n".toList optsNone =
        ⟨[⟨.KEYWORD, 0⟩, ⟨.LINEBREAK, 0⟩], "b".toList ++ [NUL]⟩ := by
  refine ⟨fun p c hsep hr hn halnum => ?_, rfl, rfl, rfl, rfl⟩
  unfold UpdateKeyword UpdateKeywordSwitch
  rw [if_neg hr, if_neg (show ¬isSep c = true by simp [hsep]), if_neg hn,
    if_neg (show ¬isalnum c = true by simp [halnum])]
  exact ⟨rfl, rfl, rfl⟩

/-- Once in TITLE_STRING, the parser accumulates every character of the
rest of the line verbatim, and the terminating newline flushes one STRING
token (the accumulator plus the rest) followed by one LINEBREAK. -/
theorem titleRun (rest : List Char) : ∀ q : DocumentParser,
    q.partial_tok_type = .TITLE_STRING →
    (∀ ch ∈ rest, ch ≠ '\n' ∧ ch ≠ '\r') →
    ((rest ++ ['\n']).foldl processChar q).doc.tokens
        = q.doc.tokens
            ++ [⟨.STRING, (q.doc.string_pool.length : ℚ)⟩, ⟨.LINEBREAK, 0⟩]
    ∧ ((rest ++ ['\n']).foldl processChar q).doc.string_pool
        = q.doc.string_pool ++ q.tok ++ rest ++ [NUL] := by
  induction rest with
  | nil =>
    intro q hq hch
    have hstep : processChar q '\n' = flushLinebreak (flushStringish q .STRING) := by
      unfold processChar
      rw [hq]
      rfl
    simp only [List.nil_append, List.foldl_cons, List.foldl_nil, hstep]
    constructor
    · simp
    · simp
  | cons ch rest ih =>
    intro q hq hch
    have hch1 := hch ch (List.mem_cons_self ch rest)
    have hstep : processChar q ch
        = { q with
            tok := q.tok ++ [ch],
            line_pos := q.line_pos + 1 } := by
      unfold processChar
      rw [hq]
      show UpdateTitle q ch = _
      unfold UpdateTitle
      rw [if_neg hch1.2, if_neg hch1.1]
      rw [hq]
    have hR := ih
      { q with
        tok := q.tok ++ [ch],
        line_pos := q.line_pos + 1 }
      hq (fun x hx => hch x (List.mem_cons_of_mem ch hx))
    simp only [List.cons_append, List.foldl_cons, hstep]
    refine ⟨?_, ?_⟩
    · rw [hR.1]
    · rw [hR.2]
      simp

/-- Beginning a token at `M` on a line start with the title option pending
enters KEYWORD and is immediately overridden to TITLE_STRING, setting the
title flag, with `M` accumulated. -/
theorem titleBegin (p : DocumentParser)
    (hopt : p.options.first_line_is_title = true)
    (hfound : p.title_found = false)
    (hstart : p.doc.tokens = []
      ∨ (p.doc.tokens.getLast?.map Token.type) = some .LINEBREAK) :
    BeginToken p 'M'
      = { p with
          tok := p.tok ++ ['M'],
          partial_tok_type := .TITLE_STRING,
          title_found := true,
          line_pos := p.line_pos + 1 } := by
  have hsw : BeginTokenSwitch p 'M'
      = { p with
          tok := p.tok ++ ['M'],
          partial_tok_type := .KEYWORD,
          line_pos := p.line_pos + 1 } := by
    unfold BeginTokenSwitch
    rw [if_neg (by decide : ¬('M' = '\r')),
      if_neg (by decide : ¬(isSep 'M' = true)),
      if_neg (by decide : ¬('M' = '\n')),
      if_neg (by decide : ¬('M' = ';')),
      if_neg (by decide : ¬('M' = '/')),
      if_neg (by decide : ¬('M' = '"')),
      if_neg (by decide : ¬('M' = '.')),
      if_neg (by decide : ¬('M' = '-')),
      if_neg (by decide : ¬('M' = 't')),
      if_neg (by decide : ¬('M' = 'f')),
      if_neg (by decide : ¬(isdigit 'M' = true)),
      if_pos (show isalpha 'M' = true
          ∧ (p.doc.tokens = []
            ∨ (p.doc.tokens.getLast?.map Token.type) = some .LINEBREAK)
        from ⟨by decide, hstart⟩)]
  unfold BeginToken
  rw [hsw]
  have hov : titleOverride
      { p with
        tok := p.tok ++ ['M'],
        partial_tok_type := .KEYWORD,
        line_pos := p.line_pos + 1 }
      = { p with
          tok := p.tok ++ ['M'],
          partial_tok_type := .TITLE_STRING,
          title_found := true,
          line_pos := p.line_pos + 1 } := by
    unfold titleOverride
    split_ifs with hcnd
    · rfl
    · exact absurd ⟨hopt, hfound, hstart, by simp, by simp, by simp⟩ hcnd
  rw [hov]
  simp [strayDiagWrap]

/-- C6 counterexample: with the title option on, a first content line whose
leading character is `"` is NOT pooled as the entire line — `BeginToken`
handles the first character before the title override fires, and a leading
quote is not stored, so the first content line `"Hi` is captured as the
STRING `Hi`, which differs from the whole line. -/
theorem C6_title_leading_quote_counterexample :
    LoadFromString "\"Hi\n".toList optsTitle
      = ⟨[⟨.STRING, 0⟩, ⟨.LINEBREAK, 0⟩], "Hi".toList ++ [NUL]⟩
    ∧ poolStr (LoadFromString "\"Hi\n".toList optsTitle).string_pool 0
        ≠ "\"Hi".toList :=
  ⟨rfl, by decide⟩

/-- C6 amended: with the title option enabled, the line's first character
is still classified by `BeginToken` before the override fires (so a
leading `"` is not stored and leading separators are skipped); for a first
content line beginning with a plain letter — in particular
`My Title Has Spaces` — EVERY parser state at the start of the first
content line with no title captured yet yields one STRING token pooling
the entire line, spaces included, followed by LINEBREAK; the concrete
two-line document shows a later identical line tokenized normally; and the
TITLE_STRING state is entered at most once per run, for every input and
option set. -/
theorem C6_title_line_captured :
    (∀ p : DocumentParser,
      p.options.first_line_is_title = true →
      p.title_found = false →
      p.partial_tok_type = .NONE →
      p.tok = [] →
      (p.doc.tokens = []
        ∨ (p.doc.tokens.getLast?.map Token.type) = some .LINEBREAK) →
      ("My Title Has Spaces\n".toList.foldl processChar p).doc.tokens
          = p.doc.tokens
              ++ [⟨.STRING, (p.doc.string_pool.length : ℚ)⟩, ⟨.LINEBREAK, 0⟩]
      ∧ ("My Title Has Spaces\n".toList.foldl processChar p).doc.string_pool
          = p.doc.string_pool ++ "My Title Has Spaces".toList ++ [NUL])
    ∧ LoadFromString "My Title Has Spaces\nMy Title Has Spaces\n".toList optsTitle
        = ⟨[⟨.STRING, 0⟩, ⟨.LINEBREAK, 0⟩, ⟨.KEYWORD, 20⟩, ⟨.LINEBREAK, 0⟩],
           "My Title Has Spaces".toList ++ [NUL] ++ "My".toList ++ [NUL]⟩
    ∧ (∀ (input : List Char) (options : Options),
        titleEntries (initialParser options) input ≤ 1) := by
  refine ⟨?_, rfl, fun input options => ?_⟩
  · intro p hopt hfound hnone htok hstart
    have hM : processChar p 'M'
        = { p with
            tok := p.tok ++ ['M'],
            partial_tok_type := .TITLE_STRING,
            title_found := true,
            line_pos := p.line_pos + 1 } := by
      have hb := titleBegin p hopt hfound hstart
      unfold processChar
      rw [hnone]
      exact hb
    have hdecomp : "My Title Has Spaces\n".toList
        = 'M' :: ("y Title Has Spaces".toList ++ ['\n']) := rfl
    have hsplit : "My Title Has Spaces".toList
        = 'M' :: "y Title Has Spaces".toList := rfl
    rw [hdecomp, List.foldl_cons, hM]
    have hR := titleRun "y Title Has Spaces".toList
      { p with
        tok := p.tok ++ ['M'],
        partial_tok_type := .TITLE_STRING,
        title_found := true,
        line_pos := p.line_pos + 1 }
      rfl (by decide)
    refine ⟨?_, ?_⟩
    · rw [hR.1]
    · rw [hR.2, hsplit]
      simp [htok]
  · have h := titleEntries_le input (initialParser options)
    simpa [initialParser] using h

/-- C6 witness: the universal part applied at the initial parser with the
title option on, all hypotheses discharged concretely. -/
theorem C6_title_line_captured_witness :
    ("My Title Has Spaces\n".toList.foldl processChar
        (initialParser optsTitle)).doc.tokens
      = (initialParser optsTitle).doc.tokens
          ++ [⟨.STRING, ((initialParser optsTitle).doc.string_pool.length : ℚ)⟩,
              ⟨.LINEBREAK, 0⟩] :=
  (C6_title_line_captured.1 (initialParser optsTitle)
    rfl rfl rfl rfl (Or.inl rfl)).1

/-- C10: in every token list produced by tokenization, each COMMENT token
is immediately followed by a LINEBREAK token; a comment still open at end
of input is never flushed as a COMMENT token. -/
theorem C10_comment_followed_by_linebreak (input : List Char) (options : Options) :
    CommentLinebreakInv (LoadFromString input options).tokens := by
  unfold LoadFromString ensureLinebreak
  by_cases h : endsWithLinebreak (runParser input options).doc.tokens = true
  · rw [if_pos h]
    exact CommentLinebreakInv.runParser input options
  · rw [if_neg h]
    exact (CommentLinebreakInv.runParser input options).append_single (by simp)

/-- C5 witness: the general statement applied at the concrete parser state
reached after `a` and the concrete character `$`. -/
theorem C5_malformed_keyword_discarded_witness :
    (UpdateKeyword (runParser "a".toList optsNone) '$').partial_tok_type = .GARBAGE :=
  (C5_malformed_keyword_discarded.1 (runParser "a".toList optsNone) '$'
    (by decide) (by decide) (by decide) (by decide)).1

/-- C10 witness: on `;hi` followed by a newline, the COMMENT token at
index 0 is indeed followed by a LINEBREAK token at index 1. -/
theorem C10_comment_followed_by_linebreak_witness :
    ((LoadFromString ";hi\n".toList optsNone).tokens[1]?).map Token.type
      = some .LINEBREAK :=
  C10_comment_followed_by_linebreak ";hi\n".toList optsNone 0 rfl

/-- C7: with naked strings enabled and slash comments disabled, tokenizing
`key foo bar/baz` yields STRING("foo") then STRING("bar/baz") after the
keyword: the `/` arriving inside the naked string `bar/baz` is accumulated
as an ordinary character, and whitespace splits naked strings. -/
theorem C7_naked_string_slash :
    LoadFromString "key foo bar/baz\n".toList optsNaked =
      ⟨[⟨.KEYWORD, 0⟩, ⟨.STRING, 4⟩, ⟨.STRING, 8⟩, ⟨.LINEBREAK, 0⟩],
       "key".toList ++ [NUL] ++ "foo".toList ++ [NUL] ++ "bar/baz".toList ++ [NUL]⟩
    ∧ poolStr (LoadFromString "key foo bar/baz\n".toList optsNaked).string_pool 4
        = "foo".toList
    ∧ poolStr (LoadFromString "key foo bar/baz\n".toList optsNaked).string_pool 8
        = "bar/baz".toList :=
  ⟨rfl, rfl, rfl⟩

/-- C8: serializing the document KEYWORD("set"), NUMBER(3.0), LINEBREAK
writes exactly `set 3.000000` followed by the line terminator: the keyword
is written with no leading separator and sets the separator to one space,
the number is rendered fixed-point with six decimals, and LINEBREAK writes
the terminator and resets the separator. -/
theorem C8_serialize_keyword_number (eol : List Char) :
    SaveToString ⟨[⟨.KEYWORD, 0⟩, ⟨.NUMBER, 3⟩, ⟨.LINEBREAK, 0⟩],
        "set".toList ++ [NUL]⟩ eol
      = "set 3.000000".toList ++ eol := by
  show (("set".toList ++ (" ".toList ++ formatFixed6 3)) ++ eol : List Char) = _
  have h : ("set".toList ++ (" ".toList ++ formatFixed6 3) : List Char)
      = "set 3.000000".toList := by decide
  rw [h]

end GFF
